import Mathlib

/-!
Shallow embedding of the suno-daw plugin core
(src/plugin/PluginProcessor.cpp, src/plugin/PluginProcessor.h,
src/SunoClient/SunoClient.hpp) in Lean 4, together with theorems
settling the specification claims about the job state machine, the
segment store, the recording capture and the playback staging path.

Machine `float` samples are modelled as rationals, C++ `int` as `Int`,
`std::vector` as `List`, and the external collaborators (the network
client and the WAV codec) as explicit oracles passed to the worker
functions.  Worker threads are modelled as sequential functions over a
`Proc` record mirroring the processor's fields; the unbounded polling
loop is driven by a finite oracle list of poll responses (running out
of oracle answers models the still-polling / non-terminated loop).
-/

namespace SunoDaw

/-- Job state enumeration, from `AceForgeSunoAudioProcessor::State`
(PluginProcessor.h): `Idle, Submitting, Running, Succeeded, Failed`. -/
inductive JobState where
  | Idle
  | Submitting
  | Running
  | Succeeded
  | Failed
deriving DecidableEq, Repr

/-- Modelled from the spec: the `RecordedSegment` struct declaration is not
present under `src/` (the checked-in header predates the segment store; only
its uses in PluginProcessor.cpp are).  Spec section 3: "an owned buffer of
interleaved stereo samples (32-bit float), a sample rate, and two trim
offsets (start, end-exclusive; end of 0 means full length)".  The field
defaults model C++ value-initialization (`return {}` in `getSegment`). -/
structure RecordedSegment where
  buffer : List ℚ := []
  sampleRate : ℚ := 0
  trimStartSamples : Int := 0
  trimEndSamples : Int := 0
deriving DecidableEq, Repr

instance : Inhabited RecordedSegment := ⟨{}⟩

/-- The processor state: the fields of `AceForgeSunoAudioProcessor`
(PluginProcessor.h / PluginProcessor.cpp) that the verified operations
read or write.  `ringBuffer` stands for `playbackBuffer_` (the FIFO's
backing store). -/
structure Proc where
  state : JobState := .Idle
  statusText : String := ""
  lastError : String := ""
  connected : Bool := false
  segments : List RecordedSegment := []
  selectedSegmentIndex : Int := -1
  currentSegmentBuffer : List ℚ := []
  wasPlaying : Bool := false
  transportRecording : Bool := false
  sampleRate : ℚ := 44100
  pendingPlaybackBuffer0 : List ℚ := []
  pendingPlaybackBuffer1 : List ℚ := []
  pendingPlaybackFrames : Int := 0
  pendingPlaybackBufferIndex : Int := 0
  nextWriteIndex : Int := 0
  pendingPlaybackReady : Bool := false
  ringBuffer : List ℚ := []
  pendingWavBytes : List Nat := []
  pendingIsTest : Bool := false
deriving DecidableEq, Repr

/-- `juce::jlimit(lower, upper, value)`: clamp `value` into `[lower, upper]`. -/
def jlimit (lower upper v : Int) : Int :=
  if v < lower then lower else if upper < v then upper else v

/-- `static_cast<int>(seg.buffer.size()) / 2`: the segment's total frame
count (interleaved stereo). -/
def totalFramesOf (seg : RecordedSegment) : Int :=
  (seg.buffer.length : Int) / 2

/-- `seg.trimEndSamples > 0 ? seg.trimEndSamples : totalFrames`: the
effective trim end (0 means "full length").  Used by
`getSegmentDurationSeconds`, `hasSelectedSegment` and `encodeSegmentAsWav`. -/
def effectiveEnd (seg : RecordedSegment) : Int :=
  if seg.trimEndSamples > 0 then seg.trimEndSamples else totalFramesOf seg

/-- `AceForgeSunoAudioProcessor::getSegment` (PluginProcessor.cpp:81-87):
out-of-range index returns a value-initialized (empty) segment. -/
def getSegment (st : Proc) (index : Int) : RecordedSegment :=
  if index < 0 ∨ (st.segments.length : Int) ≤ index then default
  else st.segments.getD index.toNat default

/-- `AceForgeSunoAudioProcessor::setSegmentTrim` (PluginProcessor.cpp:102-111):
out-of-range index is a no-op; otherwise both trim fields are clamped with
`jlimit` into `[0, totalFrames]` (an `endSamples <= 0` is stored as 0,
meaning full length). -/
def setSegmentTrim (st : Proc) (index startSamples endSamples : Int) : Proc :=
  if index < 0 ∨ (st.segments.length : Int) ≤ index then st
  else
    let seg := st.segments.getD index.toNat default
    let totalFrames := (seg.buffer.length : Int) / 2
    let seg' := { seg with
      trimStartSamples := jlimit 0 totalFrames startSamples,
      trimEndSamples := if endSamples ≤ 0 then 0 else jlimit 0 totalFrames endSamples }
    { st with segments := st.segments.set index.toNat seg' }

/-- `AceForgeSunoAudioProcessor::removeSegment` (PluginProcessor.cpp:113-124):
out-of-range index is a no-op; otherwise the segment is erased and the
selection is cleared (if it pointed at the erased index), shifted down by
one (if it pointed above it), or kept. -/
def removeSegment (st : Proc) (index : Int) : Proc :=
  if index < 0 ∨ (st.segments.length : Int) ≤ index then st
  else
    let sel := st.selectedSegmentIndex
    { st with
      segments := st.segments.eraseIdx index.toNat,
      selectedSegmentIndex :=
        if sel = index then -1 else if index < sel then sel - 1 else sel }

/-- `AceForgeSunoAudioProcessor::hasSelectedSegment` (PluginProcessor.cpp:131-145):
the selection is valid and the selected segment's trimmed span is at least
44100 frames (~1 second). -/
def hasSelectedSegment (st : Proc) : Bool :=
  let idx := st.selectedSegmentIndex
  if idx < 0 then false
  else if (st.segments.length : Int) ≤ idx then false
  else
    let seg := st.segments.getD idx.toNat default
    let totalFrames := (seg.buffer.length : Int) / 2
    if totalFrames < 44100 then false
    else
      let e := if seg.trimEndSamples > 0 then seg.trimEndSamples else totalFrames
      decide (44100 ≤ e - seg.trimStartSamples)

/-- `AceForgeSunoAudioProcessor::encodeSegmentAsWav` (PluginProcessor.cpp:147-188).
The WAV writer itself is the external Audio Codec collaborator (spec
section 6) and is passed as the oracle `enc` mapping the trimmed
interleaved samples and sample rate to encoded bytes; the function
returns the empty byte vector on an out-of-range index or an empty
trimmed span, exactly as the early returns in the source do. -/
def encodeSegmentAsWav (enc : List ℚ → ℚ → List Nat) (st : Proc) (segmentIndex : Int) :
    List Nat :=
  if segmentIndex < 0 ∨ (st.segments.length : Int) ≤ segmentIndex then []
  else
    let seg := st.segments.getD segmentIndex.toNat default
    let totalFrames := (seg.buffer.length : Int) / 2
    if totalFrames ≤ 0 then []
    else
      let s := seg.trimStartSamples
      let e := if seg.trimEndSamples > 0 then seg.trimEndSamples else totalFrames
      let numFrames := max 0 (e - s)
      if numFrames ≤ 0 then []
      else
        let samples := (seg.buffer.drop (2 * s).toNat).take (2 * numFrames).toNat
        enc samples seg.sampleRate

/-! ### String matching as used in the polling loops

`juce::String::contains` is a case-sensitive substring search;
`juce::String::equalsIgnoreCase` compares whole strings ignoring letter
case.  `lowerChar` models ASCII lower-casing. -/

/-- ASCII lower-casing of one character. -/
def lowerChar (c : Char) : Char :=
  if 'A' ≤ c ∧ c ≤ 'Z' then Char.ofNat (c.toNat + 32) else c

/-- `juce::String::equalsIgnoreCase`: whole-string comparison ignoring case. -/
def equalsIgnoreCase (a b : String) : Bool :=
  a.toList.map lowerChar == b.toList.map lowerChar

/-- Sliding-window substring scan: does `needle` occur inside the list? -/
def containsAux (needle : List Char) : List Char → Bool
  | [] => needle.isEmpty
  | c :: rest => needle.isPrefixOf (c :: rest) || containsAux needle rest

/-- `juce::String::contains`: case-sensitive substring containment. -/
def containsSub (hay needle : String) : Bool :=
  containsAux needle.toList hay.toList

/-- The success test of the polling loops (PluginProcessor.cpp:327 etc.):
`statusStr.equalsIgnoreCase("SUCCESS") || statusStr.equalsIgnoreCase("success")`. -/
def successMatch (s : String) : Bool :=
  equalsIgnoreCase s "SUCCESS" || equalsIgnoreCase s "success"

/-- The failure test of the polling loops (PluginProcessor.cpp:355 etc.):
`statusStr.isNotEmpty() && (statusStr.contains("fail") || statusStr.contains("error"))`.
Note the substring matches are case-sensitive. -/
def failMatch (s : String) : Bool :=
  (!(s == "")) && (containsSub s "fail" || containsSub s "error")

/-! ### The network client oracle and the worker threads -/

/-- `suno::TaskStatus` (SunoClient.hpp): the poll response. -/
structure TaskStatus where
  taskId : String := ""
  status : String := ""
  errorMessage : String := ""
  audioUrls : List String := []
deriving DecidableEq, Repr

/-- The backend error detail recorded on a failure status
(PluginProcessor.cpp:359): `st.errorMessage.empty() ? st.status : st.errorMessage`. -/
def errDetail (t : TaskStatus) : String :=
  if t.errorMessage = "" then t.status else t.errorMessage

/-- The Generation Job Client collaborator (spec section 6), modelled as an
oracle of fixed responses: the stored key, the `checkCredits` answer, the
task id returned by the submit call, the URL returned by `uploadAudio`,
the bytes returned by `fetchAudio`, and `lastError()`. -/
structure ClientModel where
  apiKey : String := ""
  credits : Bool := true
  submitTaskId : String := ""
  uploadUrlResult : String := ""
  fetchResult : List Nat := []
  clientError : String := ""
deriving DecidableEq, Repr

/-- `suno::SunoClient::hasApiKey`: `!apiKey_.empty()`. -/
def hasApiKey (c : ClientModel) : Bool := !(c.apiKey == "")

/-- The actions a worker thread performs against its collaborators; each
trace entry records the job state current when the action was invoked. -/
inductive Act where
  | credits
  | encodeWav
  | upload
  | submit
  | poll
  | fetchUrl
deriving DecidableEq, Repr

/-- How a polling loop run ends. -/
inductive LoopOutcome where
  | handedOff (bytes : List Nat)
  | noUrl
  | emptyFetch
  | failedStatus (detail : String)
  | exhausted
deriving DecidableEq, Repr

/-- The polling loop shared by all four workers
(PluginProcessor.cpp:323-365 and its three clones): poll; on a success
match require a result URL and fetch it; on a failure match exit with the
backend detail; otherwise sleep 800 ms and poll again.  The loop is driven
by the finite oracle list `polls`; exhausting it models the loop still
running.  `s` is the job state current at every call in the loop. -/
def pollLoopW (c : ClientModel) (s : JobState) :
    List TaskStatus → List (Act × JobState) × LoopOutcome
  | [] => ([], .exhausted)
  | t :: rest =>
    if successMatch t.status then
      if t.audioUrls = [] then ([(Act.poll, s)], .noUrl)
      else if c.fetchResult = [] then ([(Act.poll, s), (Act.fetchUrl, s)], .emptyFetch)
      else ([(Act.poll, s), (Act.fetchUrl, s)], .handedOff c.fetchResult)
    else if failMatch t.status then ([(Act.poll, s)], .failedStatus (errDetail t))
    else
      let r := pollLoopW c s rest
      ((Act.poll, s) :: r.1, r.2)

/-- `AceForgeSunoAudioProcessor::runGenerateThread` (PluginProcessor.cpp:274-366):
key check, credits check, submit, transition to Running, polling loop,
fetch and hand off the result.  Returns the processor state and the
trace of collaborator actions with the job state at each call. -/
def runGenerateThreadW (c : ClientModel) (polls : List TaskStatus) (st : Proc) :
    Proc × List (Act × JobState) :=
  if !hasApiKey c then
    ({ st with state := .Failed, lastError := "No API key", statusText := "No API key" }, [])
  else if !c.credits then
    ({ st with
        connected := false
        state := .Failed
        lastError := "API key invalid or no credits: " ++ c.clientError
        statusText := "API key invalid or no credits: " ++ c.clientError },
     [(Act.credits, st.state)])
  else
    let st0 := { st with connected := true }
    if c.submitTaskId = "" then
      ({ st0 with state := .Failed, lastError := c.clientError, statusText := c.clientError },
       [(Act.credits, st.state), (Act.submit, st.state)])
    else
      let st1 := { st0 with state := .Running, statusText := "Generating…" }
      let r := pollLoopW c .Running polls
      let tr := [(Act.credits, st.state), (Act.submit, st.state)] ++ r.1
      match r.2 with
      | .handedOff bytes => ({ st1 with pendingWavBytes := bytes }, tr)
      | .noUrl => ({ st1 with
                      state := .Failed
                      lastError := "No audio URL in result"
                      statusText := "No audio URL in result" }, tr)
      | .emptyFetch => ({ st1 with state := .Failed, lastError := c.clientError }, tr)
      | .failedStatus d => ({ st1 with state := .Failed, lastError := d, statusText := d }, tr)
      | .exhausted => (st1, tr)

/-- `AceForgeSunoAudioProcessor::runUploadCoverThread` (PluginProcessor.cpp:368-482):
key check, credits check, encode the selected segment, transition to
Running, upload, submit, polling loop.  `jobSegIdx` is the segment index
stored by the trigger; `enc` is the WAV codec oracle. -/
def runUploadCoverThreadW (enc : List ℚ → ℚ → List Nat) (c : ClientModel)
    (polls : List TaskStatus) (jobSegIdx : Int) (st : Proc) :
    Proc × List (Act × JobState) :=
  if !hasApiKey c then
    ({ st with state := .Failed, lastError := "No API key", statusText := "No API key" }, [])
  else if !c.credits then
    ({ st with
        connected := false
        state := .Failed
        lastError := "API key invalid or no credits"
        statusText := "API key invalid or no credits" },
     [(Act.credits, st.state)])
  else
    let st0 := { st with connected := true }
    let wav := encodeSegmentAsWav enc st0 jobSegIdx
    let tr0 := [(Act.credits, st.state), (Act.encodeWav, st.state)]
    if wav = [] then
      ({ st0 with
          state := .Failed
          lastError := "Failed to encode selected segment as WAV"
          statusText := "Failed to encode selected segment as WAV" }, tr0)
    else
      let st1 := { st0 with state := .Running, statusText := "Uploading…" }
      let tr1 := tr0 ++ [(Act.upload, JobState.Running)]
      if c.uploadUrlResult = "" then
        ({ st1 with
            state := .Failed
            lastError := c.clientError
            statusText := c.clientError }, tr1)
      else
        let tr2 := tr1 ++ [(Act.submit, JobState.Running)]
        if c.submitTaskId = "" then
          ({ st1 with
              state := .Failed
              lastError := c.clientError
              statusText := c.clientError }, tr2)
        else
          let st2 := { st1 with statusText := "Generating cover…" }
          let r := pollLoopW c .Running polls
          let tr := tr2 ++ r.1
          match r.2 with
          | .handedOff bytes => ({ st2 with pendingWavBytes := bytes }, tr)
          | .noUrl => ({ st2 with
                          state := .Failed
                          lastError := "No audio URL in result"
                          statusText := "No audio URL in result" }, tr)
          | .emptyFetch => ({ st2 with state := .Failed, lastError := c.clientError }, tr)
          | .failedStatus d => ({ st2 with state := .Failed, lastError := d, statusText := d }, tr)
          | .exhausted => (st2, tr)

/-- `AceForgeSunoAudioProcessor::runAddVocalsThread` (PluginProcessor.cpp:484-597):
same shape as the cover worker (encode, Running, upload, submit, poll),
with the add-vocals submit call and its own status strings. -/
def runAddVocalsThreadW (enc : List ℚ → ℚ → List Nat) (c : ClientModel)
    (polls : List TaskStatus) (jobSegIdx : Int) (st : Proc) :
    Proc × List (Act × JobState) :=
  if !hasApiKey c then
    ({ st with state := .Failed, lastError := "No API key", statusText := "No API key" }, [])
  else if !c.credits then
    ({ st with
        connected := false
        state := .Failed
        lastError := "API key invalid or no credits"
        statusText := "API key invalid or no credits" },
     [(Act.credits, st.state)])
  else
    let st0 := { st with connected := true }
    let wav := encodeSegmentAsWav enc st0 jobSegIdx
    let tr0 := [(Act.credits, st.state), (Act.encodeWav, st.state)]
    if wav = [] then
      ({ st0 with
          state := .Failed
          lastError := "Failed to encode selected segment as WAV"
          statusText := "Failed to encode selected segment as WAV" }, tr0)
    else
      let st1 := { st0 with state := .Running, statusText := "Uploading…" }
      let tr1 := tr0 ++ [(Act.upload, JobState.Running)]
      if c.uploadUrlResult = "" then
        ({ st1 with
            state := .Failed
            lastError := c.clientError
            statusText := c.clientError }, tr1)
      else
        let tr2 := tr1 ++ [(Act.submit, JobState.Running)]
        if c.submitTaskId = "" then
          ({ st1 with
              state := .Failed
              lastError := c.clientError
              statusText := c.clientError }, tr2)
        else
          let st2 := { st1 with statusText := "Adding vocals…" }
          let r := pollLoopW c .Running polls
          let tr := tr2 ++ r.1
          match r.2 with
          | .handedOff bytes => ({ st2 with pendingWavBytes := bytes }, tr)
          | .noUrl => ({ st2 with
                          state := .Failed
                          lastError := "No audio URL in result"
                          statusText := "No audio URL in result" }, tr)
          | .emptyFetch => ({ st2 with state := .Failed, lastError := c.clientError }, tr)
          | .failedStatus d => ({ st2 with state := .Failed, lastError := d, statusText := d }, tr)
          | .exhausted => (st2, tr)

/-- `AceForgeSunoAudioProcessor::runTestApiThread` (PluginProcessor.cpp:611-701):
key check, credits check, then the transition to Running happens BEFORE
the submit call; a successful test result sets the is-test flag. -/
def runTestApiThreadW (c : ClientModel) (polls : List TaskStatus) (st : Proc) :
    Proc × List (Act × JobState) :=
  if !hasApiKey c then
    ({ st with state := .Failed, lastError := "No API key", statusText := "No API key" }, [])
  else if !c.credits then
    ({ st with
        connected := false
        state := .Failed
        lastError := "API key invalid or no credits: " ++ c.clientError
        statusText := "API key invalid or no credits: " ++ c.clientError },
     [(Act.credits, st.state)])
  else
    let st1 := { st with
        connected := true
        state := .Running
        statusText := "Testing API (minimal generate)…" }
    let tr0 := [(Act.credits, st.state), (Act.submit, JobState.Running)]
    if c.submitTaskId = "" then
      ({ st1 with
          state := .Failed
          lastError := c.clientError
          statusText := c.clientError }, tr0)
    else
      let r := pollLoopW c .Running polls
      let tr := tr0 ++ r.1
      match r.2 with
      | .handedOff bytes =>
          ({ st1 with pendingWavBytes := bytes, pendingIsTest := true }, tr)
      | .noUrl => ({ st1 with
                      state := .Failed
                      lastError := "No audio URL in test result"
                      statusText := "No audio URL in test result" }, tr)
      | .emptyFetch => ({ st1 with state := .Failed, lastError := c.clientError }, tr)
      | .failedStatus d => ({ st1 with state := .Failed, lastError := d, statusText := d }, tr)
      | .exhausted => (st1, tr)

/-! ### Triggers (the message-thread entry points)

Each trigger returns the new processor state and whether a worker
thread was spawned. -/

/-- `AceForgeSunoAudioProcessor::startGenerate` (PluginProcessor.cpp:190-210):
a trigger while Submitting or Running returns without any effect;
otherwise the compare-and-exchange moves the state to Submitting and a
worker is spawned. -/
def startGenerateT (st : Proc) : Proc × Bool :=
  if st.state = .Submitting ∨ st.state = .Running then (st, false)
  else ({ st with state := .Submitting }, true)

/-- `AceForgeSunoAudioProcessor::startTestApi` (PluginProcessor.cpp:599-609):
same guard as `startGenerate`. -/
def startTestApiT (st : Proc) : Proc × Bool :=
  if st.state = .Submitting ∨ st.state = .Running then (st, false)
  else ({ st with state := .Submitting }, true)

/-- `AceForgeSunoAudioProcessor::startUploadCover` (PluginProcessor.cpp:212-243):
the selected-segment precondition is checked BEFORE the state guard, and
its failure path stores Failed unconditionally. -/
def startUploadCoverT (st : Proc) : Proc × Bool :=
  let segIdx := st.selectedSegmentIndex
  if !hasSelectedSegment st ∨ segIdx < 0 then
    ({ st with
        state := .Failed
        lastError := "Select a recorded segment first (DAW Play then Stop to capture)."
        statusText := "Select a recorded segment first (DAW Play then Stop to capture)." },
     false)
  else if st.state = .Submitting ∨ st.state = .Running then (st, false)
  else ({ st with state := .Submitting }, true)

/-- `AceForgeSunoAudioProcessor::startAddVocals` (PluginProcessor.cpp:245-272):
same shape as `startUploadCover`. -/
def startAddVocalsT (st : Proc) : Proc × Bool :=
  let segIdx := st.selectedSegmentIndex
  if !hasSelectedSegment st ∨ segIdx < 0 then
    ({ st with
        state := .Failed
        lastError := "Select a recorded segment first (DAW Play then Stop to capture instrumental)."
        statusText := "Select a recorded segment first (DAW Play then Stop to capture instrumental)." },
     false)
  else if st.state = .Submitting ∨ st.state = .Running then (st, false)
  else ({ st with state := .Submitting }, true)

/-! ### Playback staging (`pushSamplesToPlayback`) and recording capture -/

/-- `kPlaybackFifoFrames = 1 << 20` (PluginProcessor.h): the fixed maximum
capacity of the playback ring buffer, in frames. -/
def kPlaybackFifoFrames : Int := 1048576

/-- C++ `static_cast<int>` on a real value: truncation toward zero. -/
def truncInt (x : ℚ) : Int :=
  if 0 ≤ x then ⌊x⌋ else -⌊-x⌋

/-- `std::round`: round half away from zero (the result is integral, so the
subsequent `static_cast<int>` is exact). -/
def roundHalfAway (x : ℚ) : Int :=
  if 0 ≤ x then ⌊x + 1 / 2⌋ else -⌊-x + 1 / 2⌋

/-- Read an interleaved sample at a C++ `int` index (all indices produced by
the staging loop are in range for well-formed inputs; out-of-range reads
default to 0). -/
def getQ (l : List ℚ) (i : Int) : ℚ :=
  if i < 0 then 0 else l.getD i.toNat 0

/-- One output frame of the linear-interpolation resampler
(PluginProcessor.cpp:718-733): `srcIdx = i / ratio`, interpolate between
the floor and ceil source frames with weight `t`, duplicate mono to both
channels, and silence when the source has no channels. -/
def interpFrame (input : List ℚ) (numFrames sourceChannels : Int) (ratioQ : ℚ)
    (i : Nat) : ℚ × ℚ :=
  let srcIdx : ℚ := if 0 < ratioQ then (i : ℚ) / ratioQ else (i : ℚ)
  let i0 : Int := min (max 0 (truncInt srcIdx)) (numFrames - 1)
  let i1 : Int := min (i0 + 1) (numFrames - 1)
  let t : ℚ := srcIdx - ⌊srcIdx⌋
  if 1 ≤ sourceChannels then
    let l := getQ input (i0 * sourceChannels) * (1 - t) +
             getQ input (i1 * sourceChannels) * t
    let r := if 2 ≤ sourceChannels then
               getQ input (i0 * sourceChannels + 1) * (1 - t) +
               getQ input (i1 * sourceChannels + 1) * t
             else l
    (l, r)
  else (0, 0)

/-- The interleaved output buffer written by the staging loop: frames
`i, i+1, ..., i+n-1`, each contributing its left then right sample. -/
def buildOut (f : Nat → ℚ × ℚ) (i : Nat) : Nat → List ℚ
  | 0 => []
  | n + 1 => (f i).1 :: (f i).2 :: buildOut f (i + 1) n

/-- `AceForgeSunoAudioProcessor::pushSamplesToPlayback`
(PluginProcessor.cpp:703-739): resample the decoded interleaved audio to
the host rate with linear interpolation and publish it into the double
buffer not currently live; a non-positive frame count, or an output frame
count outside `(0, kPlaybackFifoFrames]`, returns with no effect at all. -/
def pushSamplesToPlayback (input : List ℚ) (numFrames sourceChannels : Int)
    (sourceSampleRate : ℚ) (st : Proc) : Proc :=
  if numFrames ≤ 0 then st
  else
    let hostRate := st.sampleRate
    let ratioQ := if 0 < sourceSampleRate then hostRate / sourceSampleRate else 1
    let outFrames : Int := roundHalfAway ((numFrames : ℚ) * ratioQ)
    if outFrames ≤ 0 ∨ kPlaybackFifoFrames < outFrames then st
    else
      let writeIdx := st.nextWriteIndex
      let outBuf := buildOut (interpFrame input numFrames sourceChannels ratioQ) 0
                      outFrames.toNat
      { st with
        pendingPlaybackBuffer0 :=
          if writeIdx = 0 then outBuf else st.pendingPlaybackBuffer0
        pendingPlaybackBuffer1 :=
          if writeIdx = 0 then st.pendingPlaybackBuffer1 else outBuf
        pendingPlaybackFrames := outFrames
        pendingPlaybackBufferIndex := writeIdx
        pendingPlaybackReady := true
        nextWriteIndex := 1 - writeIdx }

/-- The staged buffer a state currently designates for consumption (the
slot at `pendingPlaybackBufferIndex`). -/
def stagedBuffer (st : Proc) : List ℚ :=
  if st.pendingPlaybackBufferIndex = 0 then st.pendingPlaybackBuffer0
  else st.pendingPlaybackBuffer1

/-- The transport-driven recording section of
`AceForgeSunoAudioProcessor::processBlock` (PluginProcessor.cpp:761-796),
executed under the segment lock each callback: a rising edge clears the
in-progress buffer and starts capturing; a falling edge commits the
in-progress buffer as a new full-length segment (and selects it) when it
holds at least `2 * 44100` interleaved samples, else discards it; while
playing with at least two channels, the first two channels are appended
interleaved.  `chL, chR` are the callback's first two input channels. -/
def recordingStep (isPlaying : Bool) (numCh : Int) (chL chR : List ℚ)
    (st : Proc) : Proc :=
  let st1 :=
    if isPlaying && !st.wasPlaying then
      { st with currentSegmentBuffer := [], transportRecording := true }
    else if !isPlaying && st.wasPlaying then
      let st' :=
        if 2 * 44100 ≤ st.currentSegmentBuffer.length then
          { st with
            segments := st.segments ++
              [{ buffer := st.currentSegmentBuffer
                 sampleRate := st.sampleRate
                 trimStartSamples := 0
                 trimEndSamples := 0 }]
            selectedSegmentIndex := (st.segments.length : Int) }
        else st
      { st' with currentSegmentBuffer := [], transportRecording := false }
    else st
  let st2 := { st1 with wasPlaying := isPlaying }
  if isPlaying && decide (2 ≤ numCh) then
    { st2 with currentSegmentBuffer :=
        st2.currentSegmentBuffer ++ (chL.zip chR).flatMap (fun p => [p.1, p.2]) }
  else st2

/-! ### Helper lemmas -/

theorem jlimit_le (lower upper v : Int) (h : lower ≤ upper) :
    lower ≤ jlimit lower upper v ∧ jlimit lower upper v ≤ upper := by
  unfold jlimit
  split
  · omega
  · split <;> omega

theorem containsAux_spec (needle : List Char) :
    ∀ l : List Char, containsAux needle l = true ↔ needle <:+: l := by
  intro l
  induction l with
  | nil =>
    simp [containsAux, List.isEmpty_iff]
  | cons c rest ih =>
    simp [containsAux, ih, List.infix_cons_iff]

theorem containsSub_spec (hay needle : String) :
    containsSub hay needle = true ↔ needle.toList <:+: hay.toList :=
  containsAux_spec needle.toList hay.toList

/-- `hasSelectedSegment` implies the selection index is non-negative. -/
theorem hasSelectedSegment_nonneg (st : Proc) (h : hasSelectedSegment st = true) :
    0 ≤ st.selectedSegmentIndex := by
  unfold hasSelectedSegment at h
  by_contra hneg
  rw [if_pos (by omega)] at h
  exact Bool.false_ne_true h

/-! ### Claim C10 -/

/-- Claim C10: every public segment operation called with an out-of-range
index (negative, or at least the number of stored segments) is total and
harmless: `getSegment` returns a default empty segment,
`encodeSegmentAsWav` returns an empty byte vector, and `setSegmentTrim`
and `removeSegment` leave the segment list and selection (indeed the
whole processor state) unchanged. -/
theorem C10_out_of_range_harmless (st : Proc) (index a b : Int)
    (enc : List ℚ → ℚ → List Nat)
    (h : index < 0 ∨ (st.segments.length : Int) ≤ index) :
    getSegment st index = default ∧
    encodeSegmentAsWav enc st index = [] ∧
    setSegmentTrim st index a b = st ∧
    removeSegment st index = st := by
  refine ⟨?_, ?_, ?_, ?_⟩ <;>
    simp only [getSegment, encodeSegmentAsWav, setSegmentTrim, removeSegment, if_pos h]

/-- Witness for C10 at a store of one segment and index 5. -/
theorem C10_out_of_range_harmless_witness :
    getSegment { segments := [{ buffer := [1, 2] }] } 5 = default ∧
    encodeSegmentAsWav (fun _ _ => [9]) { segments := [{ buffer := [1, 2] }] } 5 = [] ∧
    setSegmentTrim { segments := [{ buffer := [1, 2] }] } 5 3 4 =
      { segments := [{ buffer := [1, 2] }] } ∧
    removeSegment { segments := [{ buffer := [1, 2] }] } 5 =
      { segments := [{ buffer := [1, 2] }] } :=
  C10_out_of_range_harmless { segments := [{ buffer := [1, 2] }] } 5 3 4
    (fun _ _ => [9]) (by decide)

/-! ### Claim C9 -/

/-- Claim C9: for every store with a valid selected segment index, removing
a segment at an index strictly below the selection decrements the
selection by one; removing the selected segment clears the selection to
none (-1); removing a segment above the selection leaves it unchanged. -/
theorem C9_remove_selection_shift (st : Proc) (index : Int)
    (_hsel0 : 0 ≤ st.selectedSegmentIndex)
    (_hsel1 : st.selectedSegmentIndex < (st.segments.length : Int))
    (hi0 : 0 ≤ index) (hi1 : index < (st.segments.length : Int)) :
    (index < st.selectedSegmentIndex →
      (removeSegment st index).selectedSegmentIndex = st.selectedSegmentIndex - 1) ∧
    (index = st.selectedSegmentIndex →
      (removeSegment st index).selectedSegmentIndex = -1) ∧
    (st.selectedSegmentIndex < index →
      (removeSegment st index).selectedSegmentIndex = st.selectedSegmentIndex) := by
  unfold removeSegment
  rw [if_neg (by omega)]
  refine ⟨fun hlt => ?_, fun heq => ?_, fun hgt => ?_⟩
  · simp only
    rw [if_neg (by omega), if_pos hlt]
  · simp only
    rw [if_pos heq.symm]
  · simp only
    rw [if_neg (by omega), if_neg (by omega)]

/-- Witness for C9: three segments, selection at 1, removing index 0
shifts the selection down to 0. -/
theorem C9_remove_selection_shift_witness :
    (removeSegment { segments := [{}, {}, {}], selectedSegmentIndex := 1 } 0).selectedSegmentIndex
      = 0 := by
  have h := (C9_remove_selection_shift
    { segments := [{}, {}, {}], selectedSegmentIndex := 1 } 0
    (by decide) (by decide) (by decide) (by decide)).1 (by decide)
  simpa using h

/-! ### Claim C2 -/

/-- Counterexample to claim C2 as stated: on a 2-frame segment,
`setSegmentTrim(0, 2, 1)` stores `trimStart = 2` and `trimEnd = 1`
(each clamped independently), so `trimStart <= effectiveEnd` fails. -/
theorem C2_counterexample :
    ¬ (((setSegmentTrim { segments := [{ buffer := [0, 0, 0, 0] }] } 0 2 1).segments.getD
          0 default).trimStartSamples ≤
        effectiveEnd ((setSegmentTrim { segments := [{ buffer := [0, 0, 0, 0] }] }
          0 2 1).segments.getD 0 default)) := by
  decide

/-- Claim C2 (amended): after any `setSegmentTrim` call on a valid segment
index with arbitrary (including out-of-range) start and end arguments,
the stored trim fields satisfy `0 <= trimStart <= totalFrames` and
`0 <= effectiveEnd <= totalFrames` (each value clamped into range
independently), where `effectiveEnd` is `trimEnd` when `trimEnd > 0` and
`totalFrames` otherwise; `trimStart <= effectiveEnd` is NOT guaranteed. -/
theorem C2_trim_clamped (st : Proc) (index a b : Int)
    (hi0 : 0 ≤ index) (hi1 : index < (st.segments.length : Int)) :
    0 ≤ ((setSegmentTrim st index a b).segments.getD index.toNat default).trimStartSamples ∧
    ((setSegmentTrim st index a b).segments.getD index.toNat default).trimStartSamples ≤
      totalFramesOf ((setSegmentTrim st index a b).segments.getD index.toNat default) ∧
    0 ≤ effectiveEnd ((setSegmentTrim st index a b).segments.getD index.toNat default) ∧
    effectiveEnd ((setSegmentTrim st index a b).segments.getD index.toNat default) ≤
      totalFramesOf ((setSegmentTrim st index a b).segments.getD index.toNat default) := by
  have hlen : index.toNat < st.segments.length := by omega
  unfold setSegmentTrim
  rw [if_neg (by omega)]
  simp only [List.getD_eq_getElem?_getD, List.getElem?_set_self (by simpa using hlen),
    Option.getD_some]
  generalize st.segments[index.toNat]?.getD default = seg
  have htot : (0 : Int) ≤ (seg.buffer.length : Int) / 2 := by positivity
  obtain ⟨ha1, ha2⟩ := jlimit_le 0 ((seg.buffer.length : Int) / 2) a htot
  obtain ⟨hb1, hb2⟩ := jlimit_le 0 ((seg.buffer.length : Int) / 2) b htot
  refine ⟨ha1, ha2, ?_, ?_⟩ <;>
    · simp only [totalFramesOf, effectiveEnd]
      split_ifs <;> omega

/-- Witness for C2 (amended) at a 2-frame segment with out-of-range
arguments: both fields are clamped into `[0, 2]`. -/
theorem C2_trim_clamped_witness :
    0 ≤ ((setSegmentTrim { segments := [{ buffer := [0, 0, 0, 0] }] } 0 7 (-3)).segments.getD
          0 default).trimStartSamples ∧
    ((setSegmentTrim { segments := [{ buffer := [0, 0, 0, 0] }] } 0 7 (-3)).segments.getD
          0 default).trimStartSamples ≤
      totalFramesOf ((setSegmentTrim { segments := [{ buffer := [0, 0, 0, 0] }] }
          0 7 (-3)).segments.getD 0 default) ∧
    0 ≤ effectiveEnd ((setSegmentTrim { segments := [{ buffer := [0, 0, 0, 0] }] }
          0 7 (-3)).segments.getD 0 default) ∧
    effectiveEnd ((setSegmentTrim { segments := [{ buffer := [0, 0, 0, 0] }] }
          0 7 (-3)).segments.getD 0 default) ≤
      totalFramesOf ((setSegmentTrim { segments := [{ buffer := [0, 0, 0, 0] }] }
          0 7 (-3)).segments.getD 0 default) := by
  have h := C2_trim_clamped { segments := [{ buffer := [0, 0, 0, 0] }] } 0 7 (-3)
    (by decide) (by decide)
  simpa using h

/-! ### Claim C7 -/

/-- Claim C7: on a transport falling edge (`wasPlaying` and now not
playing), a new segment is committed to the store if and only if the
in-progress capture has at least the 1-second minimum (44100 frames,
i.e. `2 * 44100` interleaved samples); when committed, exactly one segment
is appended, full length (`trimEnd = 0`, `trimStart = 0`), and the
selection is set to its index; below the minimum, the segment list and
the selection are unchanged.  Either way the in-progress buffer is
cleared and capturing stops. -/
theorem C7_falling_edge_commit (numCh : Int) (chL chR : List ℚ) (st : Proc)
    (hWp : st.wasPlaying = true) :
    (2 * 44100 ≤ st.currentSegmentBuffer.length →
      (recordingStep false numCh chL chR st).segments = st.segments ++
        [{ buffer := st.currentSegmentBuffer
           sampleRate := st.sampleRate
           trimStartSamples := 0
           trimEndSamples := 0 }] ∧
      (recordingStep false numCh chL chR st).selectedSegmentIndex =
        (st.segments.length : Int)) ∧
    (st.currentSegmentBuffer.length < 2 * 44100 →
      (recordingStep false numCh chL chR st).segments = st.segments ∧
      (recordingStep false numCh chL chR st).selectedSegmentIndex =
        st.selectedSegmentIndex) ∧
    (recordingStep false numCh chL chR st).currentSegmentBuffer = [] ∧
    (recordingStep false numCh chL chR st).transportRecording = false := by
  unfold recordingStep
  simp only [hWp, Bool.false_and, Bool.not_false, Bool.true_and, Bool.not_true,
    Bool.and_self, if_false, Bool.false_eq_true, if_neg (Bool.false_ne_true)]
  by_cases hlen : 2 * 44100 ≤ st.currentSegmentBuffer.length
  · rw [if_pos hlen]
    refine ⟨fun _ => ⟨rfl, rfl⟩, fun hlt => absurd hlen (by omega), rfl, rfl⟩
  · rw [if_neg hlen]
    exact ⟨fun hge => absurd hge hlen, fun _ => ⟨rfl, rfl⟩, rfl, rfl⟩

/-- Witness for C7: a falling edge with a short (2-frame) capture leaves
the store and selection unchanged and clears the in-progress buffer. -/
theorem C7_falling_edge_commit_witness :
    ((recordingStep false 2 [] []
        { currentSegmentBuffer := [1, 2, 3, 4], wasPlaying := true }).segments =
      ({ currentSegmentBuffer := [1, 2, 3, 4], wasPlaying := true } : Proc).segments ∧
     (recordingStep false 2 [] []
        { currentSegmentBuffer := [1, 2, 3, 4], wasPlaying := true }).selectedSegmentIndex =
      ({ currentSegmentBuffer := [1, 2, 3, 4], wasPlaying := true } : Proc).selectedSegmentIndex) ∧
    (recordingStep false 2 [] []
        { currentSegmentBuffer := [1, 2, 3, 4], wasPlaying := true }).currentSegmentBuffer = [] ∧
    (recordingStep false 2 [] []
        { currentSegmentBuffer := [1, 2, 3, 4], wasPlaying := true }).transportRecording = false := by
  have h := C7_falling_edge_commit 2 [] []
    { currentSegmentBuffer := [1, 2, 3, 4], wasPlaying := true } rfl
  exact ⟨h.2.1 (by decide), h.2.2⟩

/-! ### Claim C1 -/

/-- Counterexample to claim C1 as stated: a `startUploadCover` trigger
issued while the job state is Running, with no qualifying selected
segment, is NOT a no-op — it overwrites the state with Failed (the
precondition check precedes the state guard in the source). -/
theorem C1_counterexample :
    ({ state := .Running } : Proc).state = JobState.Running ∧
    (startUploadCoverT { state := .Running }).1.state ≠ JobState.Running ∧
    (startUploadCoverT { state := .Running }).1.state = JobState.Failed := by
  decide

/-- Claim C1 (amended): a trigger issued while the job state is Submitting
or Running never spawns a worker; `startGenerate` and `startTestApi`
triggers (and `startUploadCover` / `startAddVocals` triggers whose
selected-segment precondition holds) are complete no-ops, the state
unchanged; but a `startUploadCover` / `startAddVocals` trigger without a
qualifying selected segment sets the state to Failed with an explanatory
error even while Submitting/Running (still spawning no worker). -/
theorem C1_second_trigger_no_spawn (st : Proc)
    (h : st.state = .Submitting ∨ st.state = .Running) :
    startGenerateT st = (st, false) ∧
    startTestApiT st = (st, false) ∧
    (startUploadCoverT st).2 = false ∧
    (startAddVocalsT st).2 = false ∧
    (hasSelectedSegment st = true →
      startUploadCoverT st = (st, false) ∧ startAddVocalsT st = (st, false)) ∧
    (hasSelectedSegment st = false →
      (startUploadCoverT st).1.state = JobState.Failed ∧
      (startAddVocalsT st).1.state = JobState.Failed) := by
  refine ⟨?_, ?_, ?_, ?_, ?_, ?_⟩
  · unfold startGenerateT
    rw [if_pos h]
  · unfold startTestApiT
    rw [if_pos h]
  · simp only [startUploadCoverT]
    split_ifs <;> rfl
  · simp only [startAddVocalsT]
    split_ifs <;> rfl
  · intro hsel
    have hnn := hasSelectedSegment_nonneg st hsel
    constructor
    · unfold startUploadCoverT
      rw [if_neg (by simp [hsel]; omega), if_pos h]
    · unfold startAddVocalsT
      rw [if_neg (by simp [hsel]; omega), if_pos h]
  · intro hsel
    constructor
    · unfold startUploadCoverT
      rw [if_pos (by simp [hsel])]
    · unfold startAddVocalsT
      rw [if_pos (by simp [hsel])]

/-- Witness for C1 (amended) at a Running state with no selected segment:
generate/test triggers are no-ops, cover/add-vocals overwrite to Failed,
and none spawns a worker. -/
theorem C1_second_trigger_no_spawn_witness :
    startGenerateT { state := .Running } = ({ state := .Running }, false) ∧
    startTestApiT { state := .Running } = ({ state := .Running }, false) ∧
    (startUploadCoverT { state := .Running }).2 = false ∧
    (startAddVocalsT { state := .Running }).2 = false ∧
    (startUploadCoverT { state := .Running }).1.state = JobState.Failed ∧
    (startAddVocalsT { state := .Running }).1.state = JobState.Failed := by
  have h := C1_second_trigger_no_spawn { state := .Running } (Or.inr rfl)
  have hsel : hasSelectedSegment { state := .Running } = false := by decide
  exact ⟨h.1, h.2.1, h.2.2.1, h.2.2.2.1, (h.2.2.2.2.2 hsel).1, (h.2.2.2.2.2 hsel).2⟩

/-! ### Claim C5 -/

/-- Counterexample to claim C5 as stated: an oversized resample request
(1 input frame at rate 1 against host rate 2000000 gives 2000000 output
frames, beyond the 1048576-frame capacity) is dropped, but it is NOT
reported through the status/error fields — they are exactly as before
the call (the source simply `return`s). -/
theorem C5_counterexample :
    pushSamplesToPlayback [0, 0] 1 2 1
        { statusText := "ok", lastError := "", sampleRate := 2000000 } =
      { statusText := "ok", lastError := "", sampleRate := 2000000 } ∧
    (pushSamplesToPlayback [0, 0] 1 2 1
        { statusText := "ok", lastError := "", sampleRate := 2000000 }).lastError = "" ∧
    (pushSamplesToPlayback [0, 0] 1 2 1
        { statusText := "ok", lastError := "", sampleRate := 2000000 }).statusText = "ok" := by
  have hpush : pushSamplesToPlayback [0, 0] 1 2 1
      { statusText := "ok", lastError := "", sampleRate := 2000000 } =
      { statusText := "ok", lastError := "", sampleRate := 2000000 } := by
    norm_num [pushSamplesToPlayback, roundHalfAway, kPlaybackFifoFrames]
  exact ⟨hpush, by rw [hpush], by rw [hpush]⟩

/-- Claim C5 (amended): a staging request whose resampled output frame
count would exceed the fixed maximum capacity `kPlaybackFifoFrames` is
rejected silently: the entire processor state — double buffers, ready
flag, frame count, ring buffer, and also the status/error fields (nothing
is reported) — is unchanged. -/
theorem C5_oversized_rejected_silently (input : List ℚ)
    (numFrames sourceChannels : Int) (sourceSampleRate : ℚ) (st : Proc)
    (h : kPlaybackFifoFrames <
      roundHalfAway ((numFrames : ℚ) *
        (if 0 < sourceSampleRate then st.sampleRate / sourceSampleRate else 1))) :
    pushSamplesToPlayback input numFrames sourceChannels sourceSampleRate st = st := by
  unfold pushSamplesToPlayback
  split
  · rfl
  · rw [if_pos (Or.inr h)]

/-- Witness for C5 (amended): the oversized request of `C5_counterexample`
leaves a state with one staged buffer fully unchanged. -/
theorem C5_oversized_rejected_silently_witness :
    pushSamplesToPlayback [5, 6] 1 2 1
        { sampleRate := 2000000
          pendingPlaybackBuffer0 := [1, 2]
          pendingPlaybackFrames := 1
          pendingPlaybackReady := true
          ringBuffer := [1, 2] } =
      { sampleRate := 2000000
        pendingPlaybackBuffer0 := [1, 2]
        pendingPlaybackFrames := 1
        pendingPlaybackReady := true
        ringBuffer := [1, 2] } :=
  C5_oversized_rejected_silently [5, 6] 1 2 1
    { sampleRate := 2000000
      pendingPlaybackBuffer0 := [1, 2]
      pendingPlaybackFrames := 1
      pendingPlaybackReady := true
      ringBuffer := [1, 2] }
    (by norm_num [roundHalfAway, kPlaybackFifoFrames])

/-! ### Claim C8 -/

theorem buildOut_eq_drop (input : List ℚ) (f : Nat → ℚ × ℚ) :
    ∀ (n i : Nat), 2 * (i + n) ≤ input.length →
      (∀ j, i ≤ j → j < i + n →
        f j = (input.getD (2 * j) 0, input.getD (2 * j + 1) 0)) →
      buildOut f i n = (input.drop (2 * i)).take (2 * n) := by
  intro n
  induction n with
  | zero => intro i _ _; simp [buildOut]
  | succ m ih =>
    intro i hlen hf
    have h0 : 2 * i < input.length := by omega
    have h1 : 2 * i + 1 < input.length := by omega
    have hfi := hf i le_rfl (by omega)
    have hd0 : input.drop (2 * i) = input[2 * i] :: input.drop (2 * i + 1) :=
      List.drop_eq_getElem_cons h0
    have hd1 : input.drop (2 * i + 1) = input[2 * i + 1] :: input.drop (2 * i + 2) :=
      List.drop_eq_getElem_cons h1
    have htail : buildOut f (i + 1) m = (input.drop (2 * (i + 1))).take (2 * m) :=
      ih (i + 1) (by omega) (fun j hj1 hj2 => hf j (by omega) (by omega))
    have hg0 : input.getD (2 * i) 0 = input[2 * i] := by
      simp [List.getD_eq_getElem?_getD, List.getElem?_eq_getElem h0]
    have hg1 : input.getD (2 * i + 1) 0 = input[2 * i + 1] := by
      simp [List.getD_eq_getElem?_getD, List.getElem?_eq_getElem h1]
    calc buildOut f i (m + 1)
        = (f i).1 :: (f i).2 :: buildOut f (i + 1) m := rfl
      _ = input[2 * i] :: input[2 * i + 1] :: (input.drop (2 * i + 2)).take (2 * m) := by
          rw [hfi, htail]
          simp only [hg0, hg1]
          have : 2 * (i + 1) = 2 * i + 2 := by omega
          rw [this]
      _ = (input.drop (2 * i)).take (2 * (m + 1)) := by
          rw [hd0]
          have h2 : 2 * (m + 1) = (2 * m + 1) + 1 := by omega
          rw [h2, List.take_succ_cons, hd1, List.take_succ_cons]

theorem interpFrame_ratio_one (input : List ℚ) (N : Nat) (j : Nat) (hj : j < N) :
    interpFrame input (N : Int) 2 1 j =
      (input.getD (2 * j) 0, input.getD (2 * j + 1) 0) := by
  have htr : truncInt ((j : ℚ)) = (j : Int) := by
    unfold truncInt
    rw [if_pos (by positivity)]
    exact_mod_cast Int.floor_natCast j
  have hfloor : ⌊(j : ℚ)⌋ = (j : Int) := Int.floor_natCast j
  have hi0 : ((0 : Int) ⊔ (j : Int)) ⊓ ((N : Int) - 1) = (j : Int) := by
    rw [sup_eq_right.mpr (by positivity : (0 : Int) ≤ (j : Int))]
    exact inf_eq_left.mpr (by omega)
  simp only [interpFrame]
  rw [if_pos one_pos, div_one, htr, hfloor, hi0]
  have ht : (j : ℚ) - (((j : Int) : ℚ)) = 0 := by push_cast; ring
  rw [ht]
  rw [if_pos (by omega : (1 : Int) ≤ 2), if_pos (by omega : (2 : Int) ≤ 2)]
  simp only [sub_zero, mul_one, mul_zero, add_zero]
  have hidx : ((j : Int) * 2) = ((2 * j : Nat) : Int) := by push_cast; ring
  have hidx1 : ((j : Int) * 2 + 1) = ((2 * j + 1 : Nat) : Int) := by push_cast; ring
  unfold getQ
  rw [hidx1, hidx]
  rw [if_neg (by omega), if_neg (by omega)]
  simp only [Int.toNat_natCast]

theorem roundHalfAway_natCast (n : Nat) : roundHalfAway ((n : ℚ)) = (n : Int) := by
  unfold roundHalfAway
  rw [if_pos (by positivity)]
  have : ((n : ℚ)) = (((n : Int) : ℚ)) := by push_cast; ring
  rw [this, Int.floor_int_add]
  norm_num

/-- Claim C8: staging a decoded stereo buffer of N frames at source rate R
when the host rate is also R (ratio 1) produces an output of exactly N
frames whose samples equal the input samples (linear interpolation with
t = 0 is the identity). -/
theorem C8_ratio_one_identity (input : List ℚ) (N : Nat) (R : ℚ) (st : Proc)
    (hN : 0 < N) (hNk : (N : Int) ≤ kPlaybackFifoFrames)
    (hlen : input.length = 2 * N) (hR : 0 < R) (hsr : st.sampleRate = R) :
    (pushSamplesToPlayback input (N : Int) 2 R st).pendingPlaybackFrames = (N : Int) ∧
    stagedBuffer (pushSamplesToPlayback input (N : Int) 2 R st) = input := by
  have hratio : (if 0 < R then st.sampleRate / R else 1) = 1 := by
    rw [if_pos hR, hsr, div_self (ne_of_gt hR)]
  have hout : roundHalfAway ((((N : Int) : ℚ)) * (if 0 < R then st.sampleRate / R else 1))
      = (N : Int) := by
    rw [hratio, mul_one]
    push_cast
    exact roundHalfAway_natCast N
  have hbuf : buildOut (interpFrame input ((N : Int)) 2
      (if 0 < R then st.sampleRate / R else 1)) 0 ((N : Int)).toNat = input := by
    rw [hratio, Int.toNat_natCast]
    have h := buildOut_eq_drop input (interpFrame input ((N : Int)) 2 1) N 0
      (by omega) (fun j _ hj => interpFrame_ratio_one input N j (by omega))
    simp only [Nat.mul_zero, List.drop_zero] at h
    rw [h, ← hlen, List.take_length]
  unfold pushSamplesToPlayback stagedBuffer
  rw [if_neg (by omega : ¬ ((N : Int) ≤ 0))]
  simp only [hout]
  rw [if_neg (by omega : ¬ ((N : Int) ≤ 0 ∨ kPlaybackFifoFrames < (N : Int)))]
  simp only [hbuf]
  by_cases hw : st.nextWriteIndex = 0 <;> simp [hw]

/-- Witness for C8 at a 2-frame stereo buffer and rate 44100 on both
sides: the staged buffer equals the input and the frame count is 2. -/
theorem C8_ratio_one_identity_witness :
    (pushSamplesToPlayback [1, 2, 3, 4] ((2 : Nat) : Int) 2 44100
        { sampleRate := 44100 }).pendingPlaybackFrames = ((2 : Nat) : Int) ∧
    stagedBuffer (pushSamplesToPlayback [1, 2, 3, 4] ((2 : Nat) : Int) 2 44100
        { sampleRate := 44100 }) = [1, 2, 3, 4] :=
  C8_ratio_one_identity [1, 2, 3, 4] 2 44100 { sampleRate := 44100 }
    (by norm_num) (by norm_num [kPlaybackFifoFrames]) (by simp) (by norm_num) rfl

/-! ### Claim C3 -/

theorem failMatch_iff (s : String) :
    failMatch s = true ↔
      s ≠ "" ∧ ("fail".toList <:+: s.toList ∨ "error".toList <:+: s.toList) := by
  unfold failMatch
  simp [containsSub_spec]

/-- Counterexample to claim C3 as stated: the status string "FAILED"
contains "fail" case-insensitively (its lower-cased form contains "fail"),
so the claim demands an exit to Failed; but the source's failure match is
the case-sensitive `juce::String::contains`, so the loop does not exit —
it keeps polling until the oracle is exhausted. -/
theorem C3_counterexample :
    containsSub (String.mk (("FAILED").toList.map lowerChar)) "fail" = true ∧
    containsSub "FAILED" "fail" = false ∧
    (pollLoopW {} JobState.Running [{ status := "FAILED" }]).2 =
      LoopOutcome.exhausted := by
  refine ⟨by decide, by decide, by decide⟩

/-- Claim C3 (amended): during the polling loop, a poll step exits to the
Failed state recording the backend-supplied error detail (`errorMessage`
when non-empty, else the status text) exactly when the status text is
non-empty, does not match the success pattern, and contains the substring
"fail" or "error" CASE-SENSITIVELY; the success pattern is checked first,
so a status matching it never takes the failure exit; any other status
keeps the loop polling. -/
theorem C3_poll_failure_exit (c : ClientModel) (s : JobState)
    (t : TaskStatus) (rest : List TaskStatus) :
    (successMatch t.status = false → t.status ≠ "" →
      ("fail".toList <:+: t.status.toList ∨ "error".toList <:+: t.status.toList) →
      pollLoopW c s (t :: rest) =
        ([(Act.poll, s)], LoopOutcome.failedStatus (errDetail t))) ∧
    (successMatch t.status = true →
      ∀ d, (pollLoopW c s (t :: rest)).2 ≠ LoopOutcome.failedStatus d) ∧
    (successMatch t.status = false →
      ¬ (t.status ≠ "" ∧ ("fail".toList <:+: t.status.toList ∨
          "error".toList <:+: t.status.toList)) →
      pollLoopW c s (t :: rest) =
        ((Act.poll, s) :: (pollLoopW c s rest).1, (pollLoopW c s rest).2)) := by
  refine ⟨?_, ?_, ?_⟩
  · intro hs hne hinf
    have hf : failMatch t.status = true := (failMatch_iff t.status).mpr ⟨hne, hinf⟩
    unfold pollLoopW
    rw [if_neg (by simp [hs]), if_pos hf]
  · intro hs d
    unfold pollLoopW
    rw [if_pos hs]
    split
    · simp
    · split <;> simp
  · intro hs hnot
    have hf : ¬ (failMatch t.status = true) := fun h => hnot ((failMatch_iff t.status).mp h)
    conv_lhs => rw [pollLoopW]
    rw [if_neg (by simp [hs]), if_neg hf]

/-- Witness for C3 (amended): status "task failed" with backend detail
"boom" exits the loop to the failure outcome carrying "boom". -/
theorem C3_poll_failure_exit_witness :
    pollLoopW {} JobState.Running [{ status := "task failed", errorMessage := "boom" }] =
      ([(Act.poll, JobState.Running)], LoopOutcome.failedStatus "boom") := by
  have h := (C3_poll_failure_exit {} JobState.Running
    { status := "task failed", errorMessage := "boom" } []).1
    (by decide) (by decide) (Or.inl (by decide))
  have hd : errDetail { status := "task failed", errorMessage := "boom" } = "boom" := by
    unfold errDetail
    rw [if_neg (by decide)]
  rw [hd] at h
  exact h

/-! ### Claim C6 -/

/-- Claim C6: with the credential absent, triggering a Generate job ends
in the Failed state with status text containing "No API key", and the
worker makes no collaborator call at all (empty action trace: no
connectivity check, submit, poll, or fetch). -/
theorem C6_no_api_key_generate (c : ClientModel) (polls : List TaskStatus) (st : Proc)
    (hkey : c.apiKey = "") (hidle : st.state = JobState.Idle) :
    (startGenerateT st).2 = true ∧
    (runGenerateThreadW c polls (startGenerateT st).1).1.state = JobState.Failed ∧
    containsSub (runGenerateThreadW c polls (startGenerateT st).1).1.statusText
      "No API key" = true ∧
    (runGenerateThreadW c polls (startGenerateT st).1).2 = [] := by
  have hstart : startGenerateT st = ({ st with state := .Submitting }, true) := by
    unfold startGenerateT
    rw [if_neg (by simp [hidle])]
  have hkey2 : hasApiKey c = false := by simp [hasApiKey, hkey]
  rw [hstart]
  unfold runGenerateThreadW
  rw [hkey2]
  exact ⟨rfl, rfl, (by decide : containsSub "No API key" "No API key" = true), rfl⟩

/-- Witness for C6: empty credential, Idle processor, any oracle answers. -/
theorem C6_no_api_key_generate_witness :
    (startGenerateT {}).2 = true ∧
    (runGenerateThreadW { apiKey := "" } [] (startGenerateT {}).1).1.state =
      JobState.Failed ∧
    containsSub (runGenerateThreadW { apiKey := "" } [] (startGenerateT {}).1).1.statusText
      "No API key" = true ∧
    (runGenerateThreadW { apiKey := "" } [] (startGenerateT {}).1).2 = [] :=
  C6_no_api_key_generate { apiKey := "" } [] {} rfl rfl

/-! ### Claim C4 -/

/-- State discipline for the generate worker's trace: credits check and
submit run while Submitting, polls and fetches while Running. -/
def genActState (p : Act × JobState) : Bool :=
  match p.1 with
  | .credits => p.2 == .Submitting
  | .submit => p.2 == .Submitting
  | _ => p.2 == .Running

/-- State discipline for the cover/add-vocals workers' traces: credits
check and segment encoding run while Submitting; upload, submit, polls
and fetches run while Running. -/
def coverActState (p : Act × JobState) : Bool :=
  match p.1 with
  | .credits => p.2 == .Submitting
  | .encodeWav => p.2 == .Submitting
  | _ => p.2 == .Running

/-- State discipline for the connectivity-test worker's trace: only the
credits check runs while Submitting; submit and the loop run while
Running. -/
def testActState (p : Act × JobState) : Bool :=
  match p.1 with
  | .credits => p.2 == .Submitting
  | _ => p.2 == .Running

theorem pollLoopW_trace_running (c : ClientModel) :
    ∀ polls : List TaskStatus, ∀ p ∈ (pollLoopW c .Running polls).1,
      (p.1 = Act.poll ∨ p.1 = Act.fetchUrl) ∧ p.2 = JobState.Running := by
  intro polls
  induction polls with
  | nil =>
    intro p hp
    simp [pollLoopW] at hp
  | cons t rest ih =>
    intro p hp
    unfold pollLoopW at hp
    split at hp
    · split at hp
      · simp at hp
        simp [hp]
      · split at hp <;>
          · simp at hp
            rcases hp with rfl | rfl <;> simp
    · split at hp
      · simp at hp
        simp [hp]
      · simp only [List.mem_cons] at hp
        rcases hp with rfl | hp
        · exact ⟨Or.inl rfl, rfl⟩
        · exact ih p hp

theorem pollLoopW_all (c : ClientModel) (polls : List TaskStatus)
    (pred : Act × JobState → Bool)
    (hpred : ∀ p : Act × JobState, (p.1 = Act.poll ∨ p.1 = Act.fetchUrl) →
      p.2 = JobState.Running → pred p = true) :
    (pollLoopW c .Running polls).1.all pred = true := by
  rw [List.all_eq_true]
  intro p hp
  obtain ⟨h1, h2⟩ := pollLoopW_trace_running c polls p hp
  exact hpred p h1 h2

/-- Counterexample to claim C4 as stated: a cover job's upload call is
executed while the job state is already Running (the worker stores
Running right after a successful encode, before upload and submit), so
"the segment encoding, upload, and submit calls all execute while the
job state is still Submitting" is false. -/
theorem C4_counterexample :
    (Act.upload, JobState.Running) ∈
      (runUploadCoverThreadW (fun _ _ => [7])
        { apiKey := "k", credits := true, submitTaskId := "t", uploadUrlResult := "u" }
        [] 0
        { state := .Submitting, segments := [{ buffer := [1, 1, 1, 1] }] }).2 := by
  decide

/-- Claim C4 (amended): within one job, the transition to Running is made
only after the plain generate worker's submit returns a non-empty task
id; for cover and add-vocals jobs the credits check and the segment
encoding execute while Submitting but Running is entered after a
successful encode and BEFORE upload and submit (which, with polls and
fetches, execute while Running); the connectivity-test worker enters
Running before its submit call. -/
theorem C4_running_transition (enc : List ℚ → ℚ → List Nat) (c : ClientModel)
    (polls : List TaskStatus) (jobSegIdx : Int) (st : Proc)
    (hst : st.state = JobState.Submitting) :
    (runGenerateThreadW c polls st).2.all genActState = true ∧
    (c.submitTaskId = "" →
      (runGenerateThreadW c polls st).1.state ≠ JobState.Running) ∧
    (runUploadCoverThreadW enc c polls jobSegIdx st).2.all coverActState = true ∧
    (runAddVocalsThreadW enc c polls jobSegIdx st).2.all coverActState = true ∧
    (runTestApiThreadW c polls st).2.all testActState = true := by
  have hpoll := fun pred hp => pollLoopW_all c polls pred hp
  have hgen : ∀ p : Act × JobState, (p.1 = Act.poll ∨ p.1 = Act.fetchUrl) →
      p.2 = JobState.Running → genActState p = true := by
    intro p h1 h2
    obtain ⟨a, s2⟩ := p
    simp only at h1 h2
    rcases h1 with rfl | rfl <;> simp [genActState, h2]
  have hcover : ∀ p : Act × JobState, (p.1 = Act.poll ∨ p.1 = Act.fetchUrl) →
      p.2 = JobState.Running → coverActState p = true := by
    intro p h1 h2
    obtain ⟨a, s2⟩ := p
    simp only at h1 h2
    rcases h1 with rfl | rfl <;> simp [coverActState, h2]
  have htest : ∀ p : Act × JobState, (p.1 = Act.poll ∨ p.1 = Act.fetchUrl) →
      p.2 = JobState.Running → testActState p = true := by
    intro p h1 h2
    obtain ⟨a, s2⟩ := p
    simp only at h1 h2
    rcases h1 with rfl | rfl <;> simp [testActState, h2]
  refine ⟨?_, ?_, ?_, ?_, ?_⟩
  · unfold runGenerateThreadW
    have hp := pollLoopW_all c polls genActState hgen
    by_cases hk : (!hasApiKey c) = true
    · simp [hk]
    · by_cases hc : (!c.credits) = true
      · simp [hk, hc, genActState, hst]
      · by_cases hsub : c.submitTaskId = ""
        · simp [hk, hc, hsub, genActState, hst]
        · cases hout : (pollLoopW c .Running polls).2 <;>
            simp [hk, hc, hsub, hout, genActState, hst, hp]
  · intro hsub
    unfold runGenerateThreadW
    by_cases hk : (!hasApiKey c) = true
    · simp [hk]
    · by_cases hc : (!c.credits) = true
      · simp [hk, hc]
      · simp [hk, hc, hsub]
  · unfold runUploadCoverThreadW
    have hp := pollLoopW_all c polls coverActState hcover
    by_cases hk : (!hasApiKey c) = true
    · simp [hk]
    · by_cases hc : (!c.credits) = true
      · simp [hk, hc, coverActState, hst]
      · by_cases he : encodeSegmentAsWav enc
            { st with state := JobState.Submitting, connected := true } jobSegIdx = []
        · simp [hk, hc, he, coverActState, hst]
        · by_cases hu : c.uploadUrlResult = ""
          · simp [hk, hc, he, hu, coverActState, hst]
          · by_cases hsub : c.submitTaskId = ""
            · simp [hk, hc, he, hu, hsub, coverActState, hst]
            · cases hout : (pollLoopW c .Running polls).2 <;>
                simp [hk, hc, he, hu, hsub, hout, coverActState, hst, hp]
  · unfold runAddVocalsThreadW
    have hp := pollLoopW_all c polls coverActState hcover
    by_cases hk : (!hasApiKey c) = true
    · simp [hk]
    · by_cases hc : (!c.credits) = true
      · simp [hk, hc, coverActState, hst]
      · by_cases he : encodeSegmentAsWav enc
            { st with state := JobState.Submitting, connected := true } jobSegIdx = []
        · simp [hk, hc, he, coverActState, hst]
        · by_cases hu : c.uploadUrlResult = ""
          · simp [hk, hc, he, hu, coverActState, hst]
          · by_cases hsub : c.submitTaskId = ""
            · simp [hk, hc, he, hu, hsub, coverActState, hst]
            · cases hout : (pollLoopW c .Running polls).2 <;>
                simp [hk, hc, he, hu, hsub, hout, coverActState, hst, hp]
  · unfold runTestApiThreadW
    have hp := pollLoopW_all c polls testActState htest
    by_cases hk : (!hasApiKey c) = true
    · simp [hk]
    · by_cases hc : (!c.credits) = true
      · simp [hk, hc, testActState, hst]
      · by_cases hsub : c.submitTaskId = ""
        · simp [hk, hc, hsub, testActState, hst]
        · cases hout : (pollLoopW c .Running polls).2 <;>
            simp [hk, hc, hsub, hout, testActState, hst, hp]

/-- Witness for C4 (amended) at a concrete client, codec and Submitting
processor with one valid segment. -/
theorem C4_running_transition_witness :
    (runGenerateThreadW
      { apiKey := "k", credits := true, submitTaskId := "t", uploadUrlResult := "u" } []
      { state := .Submitting, segments := [{ buffer := [1, 1, 1, 1] }] }).2.all
        genActState = true ∧
    (runUploadCoverThreadW (fun _ _ => [7])
      { apiKey := "k", credits := true, submitTaskId := "t", uploadUrlResult := "u" } [] 0
      { state := .Submitting, segments := [{ buffer := [1, 1, 1, 1] }] }).2.all
        coverActState = true ∧
    (runAddVocalsThreadW (fun _ _ => [7])
      { apiKey := "k", credits := true, submitTaskId := "t", uploadUrlResult := "u" } [] 0
      { state := .Submitting, segments := [{ buffer := [1, 1, 1, 1] }] }).2.all
        coverActState = true ∧
    (runTestApiThreadW
      { apiKey := "k", credits := true, submitTaskId := "t", uploadUrlResult := "u" } []
      { state := .Submitting, segments := [{ buffer := [1, 1, 1, 1] }] }).2.all
        testActState = true := by
  have h := C4_running_transition (fun _ _ => [7])
    { apiKey := "k", credits := true, submitTaskId := "t", uploadUrlResult := "u" } [] 0
    { state := .Submitting, segments := [{ buffer := [1, 1, 1, 1] }] } rfl
  exact ⟨h.1, h.2.2.1, h.2.2.2.1, h.2.2.2.2⟩

end SunoDaw
